import Mathlib

/-!
# Alerting HTTP handlers (`backend/internal/alerting/api.go`)

A shallow embedding of the handlers of `api.go`.  A handler is a function of
the collaborators it calls (`Env`) and of the request (`Context`); it returns
an `Outcome`: the response written with `c.JSON` (if any), the ordered trace
of collaborator calls, and a run-time fault if the Go code panics.

Code of other packages (`acl`, `db`, `models`, `common`, the notifier factory,
the evaluation handler) is not part of this file of the repository and enters
as a field of `Env`.
-/

namespace Alerting

/-! ## `strconv.ParseInt(s, 10, 64)` with its error discarded -/

/-- Largest `uint64`. -/
def maxUint64 : Nat := 18446744073709551615

/-- Outcome of the digit loop of `strconv.ParseUint(s, 10, 64)`. -/
inductive UintResult where
  | ok (n : Nat)
  | syntaxErr
  | rangeErr
deriving DecidableEq, Repr

/-- Digit loop of `strconv.ParseUint` for base 10 and 64 bits: a byte that is
not a decimal digit is a syntax error, and an overflow is reported as soon as
it happens (before the rest of the string is looked at). -/
def parseUintLoop : List Char → Nat → UintResult
  | [], n => .ok n
  | c :: cs, n =>
    if 48 ≤ c.toNat ∧ c.toNat ≤ 57 then
      if maxUint64 / 10 + 1 ≤ n then .rangeErr
      else if maxUint64 < n * 10 + (c.toNat - 48) then .rangeErr
      else parseUintLoop cs (n * 10 + (c.toNat - 48))
    else .syntaxErr

/-- Go `strconv.ParseUint(s, 10, 64)`: the empty string is a syntax error. -/
def ParseUint (s : List Char) : UintResult :=
  if s = [] then .syntaxErr else parseUintLoop s 0

/-- Value returned by `strconv.ParseInt(s, 10, 64)`; every handler discards the
error (`x, _ := strconv.ParseInt(...)`).  The value is `0` on a syntax error
and the nearest `int64` bound on a range error. -/
def ParseInt (s : String) : Int :=
  match s.data with
  | [] => 0
  | c :: cs =>
    let neg := c = '-'
    let rest := if c = '+' ∨ c = '-' then cs else c :: cs
    match ParseUint rest with
    | .syntaxErr => 0
    | .rangeErr => if neg then -9223372036854775808 else 9223372036854775807
    | .ok un =>
      if ¬ neg ∧ 9223372036854775808 ≤ un then 9223372036854775807
      else if neg ∧ 9223372036854775808 < un then -9223372036854775808
      else if neg then -(un : Int) else (un : Int)

/-! ## Data model (`models`, `null`, `simplejson`) -/

/-- Modelled from the spec: `models.AlertStateType` is declared outside this
file; the spec enumerates `Pending`, `Alerting`, `OK`, `Paused`, `NoData`,
`Error`.  The source names `models.AlertStateAlerting`. -/
inductive AlertStateType where
  | AlertStatePending
  | AlertStateAlerting
  | AlertStateOK
  | AlertStatePaused
  | AlertStateNoData
  | AlertStateError
deriving DecidableEq, Repr

/-- A `null.Float`: a number with a validity flag ("value absent" is distinct
from zero).  The handlers only copy the number, so it is carried as an
integer. -/
structure NullFloat where
  Float64 : Int
  Valid : Bool
deriving DecidableEq, Repr

/-- Go `null.FloatFrom`. -/
def FloatFrom (f : Int) : NullFloat := ⟨f, true⟩

/-- A `simplejson.Json` document, kept as its serialised text. -/
structure Json where
  raw : String
deriving DecidableEq, Repr

/-- Go `(*simplejson.Json).Encode`, error discarded by the callers. -/
def Json.Encode (j : Json) : String := j.raw

/-- Fields of `models.EvalMatch` used by this file. -/
structure EvalMatch where
  Firing : Bool
  Metric : String
  Value : NullFloat
deriving DecidableEq, Repr

/-- Fields of `models.Rule` set or read by this file. -/
structure Rule where
  DashboardID : Int
  PanelID : Int
  Name : String
  Message : String
  State : AlertStateType
deriving DecidableEq, Repr

/-- A debug log entry of an evaluation pass (`Message`, `Data`). -/
structure ResultLogEntry where
  Message : String
  Data : String
deriving DecidableEq, Repr

/-- Go `models.AlertTestResultLog`. -/
structure AlertTestResultLog where
  Message : String
  Data : String
deriving DecidableEq, Repr

/-- Fields of `models.EvalContext` set or read by this file.  The state of a
context is the state of its rule (`res.Rule.State` in `TestRule`). -/
structure EvalContext where
  Rule : Rule
  IsTestRun : Bool
  IsDebug : Bool
  Error : Option String
  EvalMatches : List EvalMatch
  Logs : List ResultLogEntry
  ConditionEvals : String
deriving DecidableEq, Repr

/-- Modelled from the spec: `models.NewEvalContext` is declared outside this
file.  The spec describes a context "created fresh per evaluation invocation"
holding the source rule, with matches, logs and error as outputs of the pass
and the flags `isTestRun` and `isDebug`; a fresh context has none of the
outputs and both flags off. -/
def NewEvalContext (rule : Rule) : EvalContext :=
  { Rule := rule, IsTestRun := false, IsDebug := false, Error := none,
    EvalMatches := [], Logs := [], ConditionEvals := "" }

/-- Fields of `models.AlertNotification` used by this file. -/
structure AlertNotification where
  Id : Int
  TeamId : Int
  Name : String
  Type_ : String
  IsDefault : Bool
  DisableResolveMessage : Bool
  SendReminder : Bool
  UploadImage : Bool
  Settings : Json
deriving DecidableEq, Repr

/-- Fields of `models.AlertHistory` set by this file. -/
structure AlertHistory where
  ID : Int
  DashboardID : Int
  PanelID : Int
  State : String
  Matches : List EvalMatch
  Time : Int
deriving DecidableEq, Repr

/-- Fields of `models.Alert` read by this file. -/
structure Alert where
  PanelId : Int
  Name : String
deriving DecidableEq, Repr

/-- Handle on a `Notifier` built by `InitNotifier`. -/
structure Notifier where
  name : String
deriving DecidableEq, Repr

/-- Go `TestRuleReq`. -/
structure TestRuleReq where
  Dashboard : Json
  PanelID : Int
deriving DecidableEq, Repr

/-- Go `AlertTestResult`; `Error` is the empty string when not set. -/
structure AlertTestResult where
  Firing : Bool
  State : AlertStateType
  ConditionEvals : String
  TimeMs : String
  Error : String
  EvalMatches : List EvalMatch
  Logs : List AlertTestResultLog
deriving DecidableEq, Repr

/-! ## Requests, responses, effects -/

/-- Message keys handed to `common.ResponseI18nError`. -/
inductive I18nKey where
  | BadRequestData
  | NoPermission
  | literal (key : String)
deriving DecidableEq, Repr

/-- Payload handed to `c.JSON`. -/
inductive Body where
  | I18nError (key : I18nKey)
  | InternalError
  | ErrorMessage (msg : String)
  | Notifications (ns : List AlertNotification)
  | DashboardState (res : List (Int × String))
  | Histories (hs : List AlertHistory)
  | TestResult (r : AlertTestResult)
deriving DecidableEq, Repr

/-- One `c.JSON(status, body)` call. -/
structure Response where
  status : Nat
  body : Body
deriving DecidableEq, Repr

/-- The three statements this file executes against `alert_notification`,
with their bound arguments in order. -/
inductive Stmt where
  | Insert (teamId : Int) (name type_ : String)
      (isDefault disableResolveMessage sendReminder uploadImage : Bool)
      (settings : String) (createdBy created updated : Int)
  | Update (name type_ : String)
      (isDefault disableResolveMessage sendReminder uploadImage : Bool)
      (settings : String) (updated id : Int)
  | Delete (id : Int)
deriving DecidableEq, Repr

/-- Calls to the authorization, persistence and notification collaborators, in
the order the handler makes them. -/
inductive Effect where
  | IsTeamEditor (teamId : Int)
  | QueryNotification (id : Int)
  | Exec (s : Stmt)
  | QueryNotifications (teamId : Int)
  | QueryDashboardState (dashId : Int)
  | QueryHistory (dashId panelId limit : Int)
  | InitNotifier (model : AlertNotification)
  | sendNotification (ctx : EvalContext) (notifiers : List Notifier)
deriving DecidableEq, Repr

/-- Run-time panics of the Go code. -/
inductive Fault where
  | indexOutOfRange
  | nilDereference
deriving DecidableEq, Repr

/-- What a handler did: the response it wrote (none when it returned without
calling `c.JSON`), its collaborator calls, and the panic that ended it. -/
structure Outcome where
  response : Option Response
  effects : List Effect
  fault : Option Fault
deriving DecidableEq, Repr

/-- Errors of `db.SQL.Query`: `sql.ErrNoRows` or any other. -/
inductive SqlError where
  | ErrNoRows
  | other (msg : String)
deriving DecidableEq, Repr

/-- Columns scanned from one row of the notification listing. -/
structure NotificationScan where
  Id : Int
  Name : String
  Type_ : String
  IsDefault : Bool
  DisableResolveMessage : Bool
  SendReminder : Bool
  UploadImage : Bool
  rawSetting : String
deriving DecidableEq, Repr

/-- Columns scanned from one row of the history query; `created` is the
value of `created.UnixNano()`. -/
structure HistoryScan where
  ID : Int
  State : String
  rawMatches : String
  created : Int
deriving DecidableEq, Repr

/-- The request as the handlers read it: path parameters (`c.Param`), query
parameters (`c.Query`), both the empty string when absent, and the body as
`c.Bind` leaves it in the handler's variable. -/
structure Context where
  Param : String → String
  Query : String → String
  Notification : AlertNotification
  TestRule : TestRuleReq

/-- The collaborators.  A query answers with an error or with the rows that
`rows.Next()` yields, each carrying the result of `rows.Scan` on it. -/
structure Env where
  IsTeamEditor : Int → Bool
  CurrentUserId : Int
  Now : Int
  Exec : Stmt → Option String
  QueryNotification : Int → Except String AlertNotification
  QueryNotifications : Int → Except SqlError (List (Except String NotificationScan))
  QueryDashboardState : Int → Except SqlError (List (Except String (Int × String)))
  QueryHistory : Int → Int → Int → Except SqlError (List (Except String HistoryScan))
  UnmarshalJSON : String → Except String Json
  UnmarshalMatches : String → Except String (List EvalMatch)
  InitNotifier : AlertNotification → Except String Notifier
  sendNotification : EvalContext → List Notifier → Option String
  GetAlerts : Json → Except String (List Alert)
  NewRuleFromDBAlert : Alert → Except String Rule
  Eval : EvalContext → EvalContext
  SetNewStates : EvalContext → EvalContext
  DurationMs : EvalContext → String

/-! ## Notification channel handlers -/

/-- Go `AddNotification`. -/
def AddNotification (env : Env) (c : Context) : Outcome :=
  let nf := c.Notification
  let teamId := ParseInt (c.Param "teamId")
  if teamId = 0 then
    ⟨some ⟨400, .I18nError .BadRequestData⟩, [], none⟩
  else if ¬ env.IsTeamEditor teamId then
    ⟨some ⟨403, .I18nError .NoPermission⟩, [.IsTeamEditor teamId], none⟩
  else
    let settings := nf.Settings.Encode
    let now := env.Now
    let stmt := Stmt.Insert teamId nf.Name nf.Type_ nf.IsDefault nf.DisableResolveMessage
      nf.SendReminder nf.UploadImage settings env.CurrentUserId now now
    match env.Exec stmt with
    | some _ => ⟨some ⟨500, .InternalError⟩, [.IsTeamEditor teamId, .Exec stmt], none⟩
    | none => ⟨none, [.IsTeamEditor teamId, .Exec stmt], none⟩

/-- Go `UpdateNotification`. -/
def UpdateNotification (env : Env) (c : Context) : Outcome :=
  let nf := c.Notification
  let teamId := ParseInt (c.Param "teamId")
  if nf.Id = 0 ∨ teamId = 0 ∨ teamId ≠ nf.TeamId then
    ⟨some ⟨400, .I18nError .BadRequestData⟩, [], none⟩
  else if ¬ env.IsTeamEditor teamId then
    ⟨some ⟨403, .I18nError .NoPermission⟩, [.IsTeamEditor teamId], none⟩
  else
    let settings := nf.Settings.Encode
    let now := env.Now
    let stmt := Stmt.Update nf.Name nf.Type_ nf.IsDefault nf.DisableResolveMessage
      nf.SendReminder nf.UploadImage settings now nf.Id
    match env.Exec stmt with
    | some _ => ⟨some ⟨500, .InternalError⟩, [.IsTeamEditor teamId, .Exec stmt], none⟩
    | none => ⟨none, [.IsTeamEditor teamId, .Exec stmt], none⟩

/-- Go `DeleteNotification`. -/
def DeleteNotification (env : Env) (c : Context) : Outcome :=
  let id := ParseInt (c.Param "id")
  if id = 0 then
    ⟨some ⟨400, .I18nError .BadRequestData⟩, [], none⟩
  else
    match env.QueryNotification id with
    | .error _ => ⟨some ⟨400, .InternalError⟩, [.QueryNotification id], none⟩
    | .ok notification =>
      if ¬ env.IsTeamEditor notification.TeamId then
        ⟨some ⟨403, .I18nError .NoPermission⟩,
          [.QueryNotification id, .IsTeamEditor notification.TeamId], none⟩
      else
        match env.Exec (.Delete id) with
        | some _ =>
          ⟨some ⟨500, .InternalError⟩,
            [.QueryNotification id, .IsTeamEditor notification.TeamId, .Exec (.Delete id)], none⟩
        | none =>
          ⟨none,
            [.QueryNotification id, .IsTeamEditor notification.TeamId, .Exec (.Delete id)], none⟩

/-- The `for rows.Next()` loop of `GetNotifications`: a row whose scan fails, or
whose settings do not decode, is skipped with `continue`. -/
def scanNotifications (env : Env) (teamId : Int) :
    List (Except String NotificationScan) → List AlertNotification → List AlertNotification
  | [], notifications => notifications
  | .error _ :: rows, notifications => scanNotifications env teamId rows notifications
  | .ok n :: rows, notifications =>
    match env.UnmarshalJSON n.rawSetting with
    | .error _ => scanNotifications env teamId rows notifications
    | .ok setting =>
      scanNotifications env teamId rows
        (notifications ++ [⟨n.Id, teamId, n.Name, n.Type_, n.IsDefault, n.DisableResolveMessage,
          n.SendReminder, n.UploadImage, setting⟩])

/-- Go `GetNotifications`. -/
def GetNotifications (env : Env) (c : Context) : Outcome :=
  let teamId := ParseInt (c.Param "teamId")
  if teamId = 0 then
    ⟨some ⟨400, .I18nError .BadRequestData⟩, [], none⟩
  else
    match env.QueryNotifications teamId with
    | .error _ => ⟨some ⟨500, .InternalError⟩, [.QueryNotifications teamId], none⟩
    | .ok rows =>
      ⟨some ⟨200, .Notifications (scanNotifications env teamId rows [])⟩,
        [.QueryNotifications teamId], none⟩

/-! ## Test notification -/

/-- Go `evalMatchesBasedOnState`. -/
def evalMatchesBasedOnState : List EvalMatch :=
  let ms : List EvalMatch := []
  let ms := ms ++ [⟨true, "Low value", FloatFrom 100⟩]
  let ms := ms ++ [⟨true, "Higher Value", FloatFrom 200⟩]
  ms

/-- Go `createTestEvalContext`. -/
def createTestEvalContext : EvalContext :=
  let testRule : Rule :=
    { DashboardID := 1, PanelID := 1, Name := "Test notification",
      Message := "Someone is testing the alert notification within Grafana.",
      State := .AlertStateAlerting }
  let ctx := NewEvalContext testRule
  let ctx := { ctx with IsTestRun := true }
  let ctx := { ctx with Error := some "This is only a test" }
  let ctx := { ctx with EvalMatches := evalMatchesBasedOnState }
  ctx

/-- Go `TestNotification`. -/
def TestNotification (env : Env) (c : Context) : Outcome :=
  let model := c.Notification
  match env.InitNotifier model with
  | .error _ =>
    ⟨some ⟨400, .I18nError (.literal "error.buildNotifierError")⟩, [.InitNotifier model], none⟩
  | .ok notifier =>
    match env.sendNotification createTestEvalContext [notifier] with
    | some err =>
      ⟨some ⟨400, .ErrorMessage err⟩,
        [.InitNotifier model, .sendNotification createTestEvalContext [notifier]], none⟩
    | none =>
      ⟨none, [.InitNotifier model, .sendNotification createTestEvalContext [notifier]], none⟩

/-! ## Test rule -/

/-- Go `testAlertRule`: `handler.Eval` and `SetNewStates` update the context in
place. -/
def testAlertRule (env : Env) (rule : Rule) : EvalContext :=
  let context := NewEvalContext rule
  let context := { context with IsTestRun := true }
  let context := { context with IsDebug := true }
  let context := env.Eval context
  let context := env.SetNewStates context
  context

/-- Body of the `if alert.PanelId == req.PanelID` branch of `TestRule` once the
rule is built: the response is assembled from the evaluated context, starting
with `res.EvalMatches[0].Firing`. -/
def testRuleResponse (env : Env) (res : EvalContext) : Outcome :=
  match res.EvalMatches[0]? with
  | none => ⟨none, [], some .indexOutOfRange⟩
  | some first =>
    let resp : AlertTestResult :=
      { Firing := first.Firing, ConditionEvals := res.ConditionEvals, State := res.Rule.State,
        TimeMs := "", Error := "", EvalMatches := [], Logs := [] }
    let resp := match res.Error with
      | some e => { resp with Error := e }
      | none => resp
    let resp := res.Logs.foldl
      (fun (r : AlertTestResult) log => { r with Logs := r.Logs ++ [⟨log.Message, log.Data⟩] }) resp
    let resp := res.EvalMatches.foldl
      (fun (r : AlertTestResult) m =>
        { r with EvalMatches := r.EvalMatches ++ [⟨false, m.Metric, m.Value⟩] }) resp
    let resp := { resp with TimeMs := env.DurationMs res }
    ⟨some ⟨200, .TestResult resp⟩, [], none⟩

/-- The `for _, alert := range alerts` loop of `TestRule`. -/
def testRuleLoop (env : Env) (panelID : Int) : List Alert → Outcome
  | [] => ⟨some ⟨400, .I18nError .BadRequestData⟩, [], none⟩
  | alert :: alerts =>
    if alert.PanelId = panelID then
      match env.NewRuleFromDBAlert alert with
      | .error _ => ⟨some ⟨400, .I18nError .BadRequestData⟩, [], none⟩
      | .ok rule => testRuleResponse env (testAlertRule env rule)
    else testRuleLoop env panelID alerts

/-- Go `TestRule`. -/
def TestRule (env : Env) (c : Context) : Outcome :=
  let req := c.TestRule
  match env.GetAlerts req.Dashboard with
  | .error _ => ⟨some ⟨400, .I18nError .BadRequestData⟩, [], none⟩
  | .ok alerts => testRuleLoop env req.PanelID alerts

/-! ## Dashboard state -/

/-- Go map assignment `res[pid] = state`, the map kept as an association list. -/
def mapSet (res : List (Int × String)) (pid : Int) (state : String) : List (Int × String) :=
  res.filter (fun kv => kv.1 ≠ pid) ++ [(pid, state)]

/-- The `for rows.Next()` loop of `GetDashboardState`: the first row whose scan
fails ends the handler with a 500 response. -/
def scanDashboardState :
    List (Except String (Int × String)) → List (Int × String) → Except Response (List (Int × String))
  | [], res => .ok res
  | .error _ :: _, _ => .error ⟨500, .InternalError⟩
  | .ok (pid, state) :: rows, res => scanDashboardState rows (mapSet res pid state)

/-- Go `GetDashboardState`.  For `dashId == 0` the error payload is built but
never passed to `c.JSON`.  When the query error is `sql.ErrNoRows` the handler
goes on to `rows.Next()` on the nil `rows`. -/
def GetDashboardState (env : Env) (c : Context) : Outcome :=
  let dashId := ParseInt (c.Param "dashId")
  if dashId = 0 then
    ⟨none, [], none⟩
  else
    match env.QueryDashboardState dashId with
    | .error (.other _) => ⟨some ⟨500, .InternalError⟩, [.QueryDashboardState dashId], none⟩
    | .error .ErrNoRows => ⟨none, [.QueryDashboardState dashId], some .nilDereference⟩
    | .ok rows =>
      match scanDashboardState rows [] with
      | .error resp => ⟨some resp, [.QueryDashboardState dashId], none⟩
      | .ok res => ⟨some ⟨200, .DashboardState res⟩, [.QueryDashboardState dashId], none⟩

/-! ## History -/

/-- Modelled from the spec: the `sort.Interface` methods of
`models.AlertHistories` are declared outside this file.  The spec says history
entries are "sorted by timestamp, most-recent first", so an entry sorts before
another when its `Time` is greater. -/
def AlertHistories.Less (a b : AlertHistory) : Bool := decide (b.Time < a.Time)

/-- Go `sort.Sort`: rearranges the slice so that no element is `Less` than one
placed before it.  The Go sort is not stable; this model is insertion sort.  The
general theorems below use only that the output is ordered and a permutation,
and the evaluated examples have no two equal keys. -/
def sortSort {α : Type} (less : α → α → Bool) (l : List α) : List α :=
  l.insertionSort (fun a b => less b a = false)

/-- The `for rows.Next()` loop of `GetHistory`: a row whose scan fails, or whose
matches do not decode, is skipped with `continue`. -/
def scanHistories (env : Env) (dashId panelId : Int) :
    List (Except String HistoryScan) → List AlertHistory → List AlertHistory
  | [], histories => histories
  | .error _ :: rows, histories => scanHistories env dashId panelId rows histories
  | .ok row :: rows, histories =>
    match env.UnmarshalMatches row.rawMatches with
    | .error _ => scanHistories env dashId panelId rows histories
    | .ok ms =>
      scanHistories env dashId panelId rows
        (histories ++ [⟨row.ID, dashId, panelId, row.State, ms, Int.tdiv row.created 1000000⟩])

/-- Go `GetHistory`. -/
def GetHistory (env : Env) (c : Context) : Outcome :=
  let tp := c.Query "type"
  let dashId := ParseInt (c.Query "dashId")
  let panelId := ParseInt (c.Query "panelId")
  let limit := ParseInt (c.Query "limit")
  if dashId = 0 ∨ panelId = 0 then
    ⟨some ⟨400, .I18nError .BadRequestData⟩, [], none⟩
  else
    let limit := if limit = 0 then 50 else limit
    let histories : List AlertHistory := []
    if tp = "panel" then
      match env.QueryHistory dashId panelId limit with
      | .error (.other _) =>
        ⟨some ⟨500, .InternalError⟩, [.QueryHistory dashId panelId limit], none⟩
      | .error .ErrNoRows =>
        ⟨some ⟨200, .Histories histories⟩, [.QueryHistory dashId panelId limit], none⟩
      | .ok rows =>
        let histories := scanHistories env dashId panelId rows histories
        ⟨some ⟨200, .Histories (sortSort AlertHistories.Less histories)⟩,
          [.QueryHistory dashId panelId limit], none⟩
    else
      ⟨some ⟨400, .I18nError .BadRequestData⟩, [], none⟩

/-! ## The tables behind the statements

The SQL text of the statements is part of `api.go`; its reading over the rows
of a table is given here so that "the store" can be talked about. -/

/-- A row of `alert_notification`: the columns named by the statements above,
and the `id` the table assigns. -/
structure NotificationRecord where
  id : Int
  team_id : Int
  name : String
  type_ : String
  is_default : Bool
  disable_resolve_message : Bool
  send_reminder : Bool
  upload_image : Bool
  settings : String
  created_by : Int
  created : Int
  updated : Int
deriving DecidableEq, Repr

/-- The table `alert_notification`; `nextId` is the id given to the next
inserted row. -/
structure NotificationTable where
  rows : List NotificationRecord
  nextId : Int
deriving DecidableEq, Repr

/-- Reading of a statement: `INSERT` adds a row, `UPDATE ... WHERE id=?` rewrites
the listed columns (not `team_id`) of the rows with that id, and
`DELETE ... WHERE id=?` removes them. -/
def Stmt.apply : Stmt → NotificationTable → NotificationTable
  | .Insert teamId name type_ isDefault disableResolveMessage sendReminder uploadImage settings
      createdBy created updated, t =>
    ⟨t.rows ++ [⟨t.nextId, teamId, name, type_, isDefault, disableResolveMessage, sendReminder,
      uploadImage, settings, createdBy, created, updated⟩], t.nextId + 1⟩
  | .Update name type_ isDefault disableResolveMessage sendReminder uploadImage settings
      updated id, t =>
    ⟨t.rows.map (fun r =>
      if r.id = id then
        { r with name := name, type_ := type_, is_default := isDefault,
                 disable_resolve_message := disableResolveMessage, send_reminder := sendReminder,
                 upload_image := uploadImage, settings := settings, updated := updated }
      else r), t.nextId⟩
  | .Delete id, t => ⟨t.rows.filter (fun r => r.id ≠ id), t.nextId⟩

/-- The table after a trace of calls: only an `Exec` that did not return an
error changes it. -/
def tableAfter (env : Env) : List Effect → NotificationTable → NotificationTable
  | [], t => t
  | .Exec s :: es, t =>
    match env.Exec s with
    | none => tableAfter env es (s.apply t)
    | some _ => tableAfter env es t
  | _ :: es, t => tableAfter env es t

/-- The team that owns the stored channel `id` (its `team_id` column). -/
def ownerTeam (t : NotificationTable) (id : Int) : Option Int :=
  (t.rows.find? (fun r => r.id = id)).map (fun r => r.team_id)

/-- A row of `alert_history`; `created` is the stored time as `UnixNano`. -/
structure HistoryRecord where
  id : Int
  dashboard_id : Int
  panel_id : Int
  state : String
  rawMatches : String
  created : Int
deriving DecidableEq, Repr

/-- Rows of `alert_history` of one panel. -/
def panelRecords (table : List HistoryRecord) (dashId panelId : Int) : List HistoryRecord :=
  table.filter (fun r => r.dashboard_id = dashId ∧ r.panel_id = panelId)

/-- Reading of `SELECT ... FROM alert_history WHERE dashboard_id=? and panel_id=?
order by created desc limit ?` for a non-negative limit. -/
def selectPanelHistory (table : List HistoryRecord) (dashId panelId : Int) (limit : Nat) :
    List HistoryRecord :=
  ((panelRecords table dashId panelId).insertionSort (fun a b => b.created ≤ a.created)).take limit

/-- What the driver hands to `rows.Scan` for the selected records: the columns
`id,state,matches,created`, or the scan error `scanErr` attaches to the row. -/
def driverRows (scanErr : HistoryRecord → Option String) (rs : List HistoryRecord) :
    List (Except String HistoryScan) :=
  rs.map (fun r =>
    match scanErr r with
    | some e => .error e
    | none => .ok ⟨r.id, r.state, r.rawMatches, r.created⟩)

/-- The entry of the response that a stored record gives rise to, when its scan
and the decoding of its matches both succeed. -/
def entryOfRecord (env : Env) (scanErr : HistoryRecord → Option String) (dashId panelId : Int)
    (r : HistoryRecord) : Option AlertHistory :=
  match scanErr r with
  | some _ => none
  | none =>
    match env.UnmarshalMatches r.rawMatches with
    | .error _ => none
    | .ok ms => some ⟨r.id, dashId, panelId, r.state, ms, Int.tdiv r.created 1000000⟩

/-! ## Rows that survive a listing, in the words of the specification -/

/-- The channel a listed row stands for, when its scan and the decoding of its
settings both succeed. -/
def notificationOfRow (env : Env) (teamId : Int) :
    Except String NotificationScan → Option AlertNotification
  | .error _ => none
  | .ok n =>
    match env.UnmarshalJSON n.rawSetting with
    | .error _ => none
    | .ok setting =>
      some ⟨n.Id, teamId, n.Name, n.Type_, n.IsDefault, n.DisableResolveMessage, n.SendReminder,
        n.UploadImage, setting⟩

/-- The history entry a fetched row stands for, when its scan and the decoding
of its matches both succeed. -/
def historyOfRow (env : Env) (dashId panelId : Int) :
    Except String HistoryScan → Option AlertHistory
  | .error _ => none
  | .ok row =>
    match env.UnmarshalMatches row.rawMatches with
    | .error _ => none
    | .ok ms => some ⟨row.ID, dashId, panelId, row.State, ms, Int.tdiv row.created 1000000⟩

/-- The scanned `(panel_id, state)` pairs of rows that all scanned. -/
def scannedPairs : List (Except String (Int × String)) → List (Int × String)
  | [] => []
  | .error _ :: rows => scannedPairs rows
  | .ok kv :: rows => kv :: scannedPairs rows

/-! ## Sample requests and collaborators -/

/-- Value of `c.Param(key)` or `c.Query(key)`: the empty string when absent. -/
def lookupParam (kvs : List (String × String)) (key : String) : String :=
  match kvs.find? (fun kv => kv.1 = key) with
  | some kv => kv.2
  | none => ""

/-- The zero value of `models.AlertNotification`. -/
def zeroNotification : AlertNotification :=
  ⟨0, 0, "", "", false, false, false, false, ⟨""⟩⟩

/-- A request with the given path and query parameters. -/
def request (params queries : List (String × String)) : Context :=
  ⟨lookupParam params, lookupParam queries, zeroNotification, ⟨⟨""⟩, 0⟩⟩

/-- Collaborators that always succeed and hold no rows; nobody is an editor. -/
def idleEnv : Env :=
  { IsTeamEditor := fun _ => false
    CurrentUserId := 1
    Now := 0
    Exec := fun _ => none
    QueryNotification := fun _ => .error "sql: no rows in result set"
    QueryNotifications := fun _ => .ok []
    QueryDashboardState := fun _ => .ok []
    QueryHistory := fun _ _ _ => .ok []
    UnmarshalJSON := fun s => if s = "" then .error "unexpected end of JSON input" else .ok ⟨s⟩
    UnmarshalMatches := fun s => if s = "[]" then .ok [] else .error "invalid character"
    InitNotifier := fun m => .ok ⟨m.Type_⟩
    sendNotification := fun _ _ => none
    GetAlerts := fun _ => .ok []
    NewRuleFromDBAlert := fun a => .ok ⟨1, a.PanelId, a.Name, "", .AlertStatePending⟩
    Eval := fun ctx => ctx
    SetNewStates := fun ctx => ctx
    DurationMs := fun _ => "0.000ms" }

/-- A request whose body holds the channel `nf`. -/
def requestWithNotification (params : List (String × String)) (nf : AlertNotification) : Context :=
  ⟨lookupParam params, lookupParam [], nf, ⟨⟨""⟩, 0⟩⟩

/-- A request whose body is a test-rule request for panel `panelID`. -/
def requestWithRule (panelID : Int) : Context :=
  ⟨lookupParam [], lookupParam [], zeroNotification, ⟨⟨"dashboard"⟩, panelID⟩⟩

/-- The caller is an editor of team 1 only. -/
def teamOneEnv : Env :=
  { idleEnv with IsTeamEditor := fun t => decide (t = 1) }

/-- A table with one channel, id 7, owned by team 2. -/
def teamTwoTable : NotificationTable :=
  ⟨[⟨7, 2, "pager", "webhook", true, false, false, false, "url", 5, 100, 100⟩], 8⟩

/-- An update of channel 7 sent under team 1, the body naming team 1 as well. -/
def crossTeamUpdate : Context :=
  requestWithNotification [("teamId", "1")]
    ⟨7, 1, "hijacked", "email", false, false, false, false, ⟨"mine"⟩⟩

/-- A dashboard with one alert on panel 2 whose evaluation finds no series: the
pass ends in `NoData` without a match. -/
def noDataEnv : Env :=
  { idleEnv with
    GetAlerts := fun _ => .ok [⟨2, "cpu"⟩]
    SetNewStates := fun ctx => { ctx with Rule := { ctx.Rule with State := .AlertStateNoData } } }

/-- A dashboard-state query answering three rows, the second of which fails to
scan. -/
def brokenStateRowEnv : Env :=
  { idleEnv with
    QueryDashboardState := fun _ => .ok [.ok (1, "ok"), .error "converting NULL to string", .ok (3, "alerting")] }

/-- Three history rows of panel (1, 1) at times t1 < t2 < t3 (in nanoseconds). -/
def threeRecords (newestMatches : String) : List HistoryRecord :=
  [⟨1, 1, 1, "ok", "[]", 1000000000⟩,
   ⟨2, 1, 1, "alerting", "[]", 2000000000⟩,
   ⟨3, 1, 1, "ok", newestMatches, 3000000000⟩]

/-- A persistence layer answering the history query by its SQL text over
`table`, every row scanning. -/
def historyEnv (table : List HistoryRecord) : Env :=
  { idleEnv with
    QueryHistory := fun d p n => .ok (driverRows (fun _ => none) (selectPanelHistory table d p n.toNat)) }

/-- The history request of panel (1, 1) with `limit=2`. -/
def historyRequest : Context :=
  request [] [("type", "panel"), ("dashId", "1"), ("panelId", "1"), ("limit", "2")]

/-- A notifier that builds, and a delivery that fails with a reason. -/
def refusedSendEnv : Env :=
  { idleEnv with sendNotification := fun _ _ => some "dial tcp: connection refused" }

/-- Listings in which some rows fail: of three channel rows the second fails to
scan and the third has settings that do not decode; of three history rows the
second fails to scan and the third has matches that do not decode. -/
def mixedRowsEnv : Env :=
  { idleEnv with
    QueryNotifications := fun _ =>
      .ok [.ok ⟨1, "mail", "email", true, false, false, false, "addresses"⟩,
           .error "converting NULL to string",
           .ok ⟨2, "hook", "webhook", false, false, false, false, ""⟩]
    QueryHistory := fun _ _ _ =>
      .ok [.ok ⟨5, "ok", "[]", 2000000000⟩,
           .error "unsupported Scan",
           .ok ⟨4, "alerting", "[", 1000000000⟩]
    QueryDashboardState := fun _ => .ok [.ok (1, "ok"), .ok (2, "alerting"), .ok (1, "pending")] }

/-- A channel listing request: only the path parameter `teamId`. -/
def listingRequest : Context :=
  request [("teamId", "4")] []

/-- A history request: only the query parameters of `GetHistory`. -/
def panelHistoryRequest : Context :=
  request [] [("type", "panel"), ("dashId", "1"), ("panelId", "1")]

/-- A dashboard state request: only the path parameter `dashId`. -/
def stateRequest : Context :=
  request [("dashId", "1")] []

/-! ## Theorems -/

/-! ### `strconv.ParseInt` on sample inputs -/

/-- An absent parameter, a non-number and `"0"` all parse to 0; a negative
number parses to itself; an out-of-range number parses to the `int64` bound. -/
theorem ParseInt_samples :
    ParseInt "" = 0 ∧ ParseInt "abc" = 0 ∧ ParseInt "0" = 0 ∧ ParseInt "12x" = 0 ∧
    ParseInt "-5" = -5 ∧ ParseInt "+7" = 7 ∧
    ParseInt "9223372036854775808" = 9223372036854775807 := by
  decide

/-! ### C1: the limit handed to the history query -/

/-- C1 (as stated, refuted): with `limit=-5` the caller-supplied limit is `≤ 0`,
yet the limit passed to the history query is `-5`, not 50. -/
theorem GetHistory_negative_limit_passed :
    ParseInt "-5" ≤ 0 ∧
    (GetHistory idleEnv
      (request [] [("type", "panel"), ("dashId", "1"), ("panelId", "1"), ("limit", "-5")])).effects
      = [.QueryHistory 1 1 (-5)] := by
  decide

/-- C1 (amended): for every request with non-zero dashId and panelId and type
"panel", exactly one history query is issued, and its limit is 50 when the
parsed limit is 0 (absent, not a number, or zero) and the parsed limit
otherwise, a negative one included. -/
theorem GetHistory_limit_passed (env : Env) (c : Context)
    (hd : ParseInt (c.Query "dashId") ≠ 0) (hp : ParseInt (c.Query "panelId") ≠ 0)
    (ht : c.Query "type" = "panel") :
    (GetHistory env c).effects =
      [.QueryHistory (ParseInt (c.Query "dashId")) (ParseInt (c.Query "panelId"))
        (if ParseInt (c.Query "limit") = 0 then 50 else ParseInt (c.Query "limit"))] := by
  unfold GetHistory
  simp only [hd, hp, ht, or_self, if_false, if_true]
  split <;> rfl

/-- Instance of the amended C1: with no `limit` parameter the limit passed is 50. -/
theorem GetHistory_limit_passed_witness :
    ParseInt "3" ≠ 0 ∧ ParseInt "4" ≠ 0 ∧
    (GetHistory idleEnv (request [] [("type", "panel"), ("dashId", "3"), ("panelId", "4")])).effects
      = [.QueryHistory 3 4 50] :=
  ⟨by decide, by decide,
    (GetHistory_limit_passed idleEnv
      (request [] [("type", "panel"), ("dashId", "3"), ("panelId", "4")])
      (by decide) (by decide) (by decide)).trans (by decide)⟩

/-! ### C6: the `type` parameter -/

/-- C6: for every request whose `type` is not "panel" (absent or empty
included) `GetHistory` answers 400 bad request and issues no query. -/
theorem GetHistory_type_not_panel (env : Env) (c : Context) (ht : c.Query "type" ≠ "panel") :
    (GetHistory env c).response = some ⟨400, .I18nError .BadRequestData⟩ ∧
    (GetHistory env c).effects = [] ∧ (GetHistory env c).fault = none := by
  unfold GetHistory
  simp only [ht, if_false]
  split <;> simp

/-- Instance of C6: valid identifiers and no `type` parameter. -/
theorem GetHistory_type_not_panel_witness :
    (request [] [("dashId", "1"), ("panelId", "1")]).Query "type" ≠ "panel" ∧
    (GetHistory idleEnv (request [] [("dashId", "1"), ("panelId", "1")])).response
      = some ⟨400, .I18nError .BadRequestData⟩ :=
  ⟨by decide,
    (GetHistory_type_not_panel idleEnv (request [] [("dashId", "1"), ("panelId", "1")])
      (by decide)).1⟩

/-! ### C7: zero, missing or unparseable identifiers -/

/-- C7 (the failing input): for `dashId=0` `GetDashboardState` returns without
writing any response (so no 400 reaches the caller); it makes no database
access. -/
theorem GetDashboardState_zero_dashId_writes_nothing (env : Env) :
    GetDashboardState env (request [("dashId", "0")] []) = ⟨none, [], none⟩ ∧
    (GetDashboardState env (request [("dashId", "0")] [])).response
      ≠ some ⟨400, .I18nError .BadRequestData⟩ := by
  have h : GetDashboardState env (request [("dashId", "0")] []) = ⟨none, [], none⟩ := by
    unfold GetDashboardState
    have hz : ParseInt ((request [("dashId", "0")] []).Param "dashId") = 0 := by decide
    simp only [hz, if_true]
  exact ⟨h, by rw [h]; simp⟩

/-- The sibling handlers do surface a zero identifier as a 400 bad request
without touching the database. -/
theorem zero_identifier_bad_request (env : Env) (c : Context) :
    (ParseInt (c.Param "teamId") = 0 →
      AddNotification env c = ⟨some ⟨400, .I18nError .BadRequestData⟩, [], none⟩ ∧
      GetNotifications env c = ⟨some ⟨400, .I18nError .BadRequestData⟩, [], none⟩ ∧
      UpdateNotification env c = ⟨some ⟨400, .I18nError .BadRequestData⟩, [], none⟩) ∧
    (c.Notification.Id = 0 →
      UpdateNotification env c = ⟨some ⟨400, .I18nError .BadRequestData⟩, [], none⟩) ∧
    (ParseInt (c.Param "id") = 0 →
      DeleteNotification env c = ⟨some ⟨400, .I18nError .BadRequestData⟩, [], none⟩) ∧
    (ParseInt (c.Query "dashId") = 0 ∨ ParseInt (c.Query "panelId") = 0 →
      GetHistory env c = ⟨some ⟨400, .I18nError .BadRequestData⟩, [], none⟩) := by
  refine ⟨fun h => ⟨?_, ?_, ?_⟩, fun h => ?_, fun h => ?_, fun h => ?_⟩
  · unfold AddNotification; simp [h]
  · unfold GetNotifications; simp [h]
  · unfold UpdateNotification; simp [h]
  · unfold UpdateNotification; simp [h]
  · unfold DeleteNotification; simp [h]
  · unfold GetHistory; simp [h]

/-- A number outside `int64` does not parse, yet its discarded error leaves the
`int64` bound as identifier: the listing goes on to query the database. -/
theorem out_of_range_identifier_is_queried :
    GetNotifications idleEnv (request [("teamId", "9223372036854775808")] []) =
      ⟨some ⟨200, .Notifications []⟩, [.QueryNotifications 9223372036854775807], none⟩ := by
  decide

/-! ### C3: deleting a channel whose lookup fails -/

/-- C3: in `DeleteNotification`, for every non-zero id whose lookup fails, the
response is 400, the lookup is the only collaborator call (no authorization
check, no `DELETE`), and the table is left as it was. -/
theorem DeleteNotification_lookup_fails (env : Env) (c : Context) (e : String)
    (table : NotificationTable)
    (hid : ParseInt (c.Param "id") ≠ 0)
    (hq : env.QueryNotification (ParseInt (c.Param "id")) = .error e) :
    (DeleteNotification env c).response = some ⟨400, .InternalError⟩ ∧
    (DeleteNotification env c).effects = [.QueryNotification (ParseInt (c.Param "id"))] ∧
    (∀ t, Effect.IsTeamEditor t ∉ (DeleteNotification env c).effects) ∧
    (∀ s, Effect.Exec s ∉ (DeleteNotification env c).effects) ∧
    tableAfter env (DeleteNotification env c).effects table = table := by
  have h : DeleteNotification env c =
      ⟨some ⟨400, .InternalError⟩, [.QueryNotification (ParseInt (c.Param "id"))], none⟩ := by
    unfold DeleteNotification
    simp only [hid, if_false, hq]
  rw [h]
  refine ⟨rfl, rfl, ?_, ?_, ?_⟩
  · intro t; simp
  · intro s; simp
  · simp [tableAfter]

/-- Instance of C3: channel 9 is not in the store. -/
theorem DeleteNotification_lookup_fails_witness :
    ParseInt ((request [("id", "9")] []).Param "id") ≠ 0 ∧
    (DeleteNotification idleEnv (request [("id", "9")] [])).response
      = some ⟨400, .InternalError⟩ ∧
    tableAfter idleEnv (DeleteNotification idleEnv (request [("id", "9")] [])).effects teamTwoTable
      = teamTwoTable :=
  ⟨by decide,
    (DeleteNotification_lookup_fails idleEnv (request [("id", "9")] [])
      "sql: no rows in result set" teamTwoTable (by decide) rfl).1,
    (DeleteNotification_lookup_fails idleEnv (request [("id", "9")] [])
      "sql: no rows in result set" teamTwoTable (by decide) rfl).2.2.2.2⟩

/-! ### C2: authorization before mutation -/

/-- C2 (the failing input): channel 7 is owned by team 2, of which the caller is
not an editor.  `UpdateNotification` under team 1 with a body naming team 1
asks `IsTeamEditor` about team 1 only and then executes the `UPDATE` of
channel 7, which rewrites the row owned by team 2. -/
theorem UpdateNotification_updates_foreign_channel :
    ownerTeam teamTwoTable 7 = some 2 ∧
    teamOneEnv.IsTeamEditor 2 = false ∧
    (UpdateNotification teamOneEnv crossTeamUpdate).effects =
      [.IsTeamEditor 1, .Exec (.Update "hijacked" "email" false false false false "mine" 0 7)] ∧
    (UpdateNotification teamOneEnv crossTeamUpdate).response = none ∧
    (tableAfter teamOneEnv (UpdateNotification teamOneEnv crossTeamUpdate).effects
      teamTwoTable).rows =
      [⟨7, 2, "hijacked", "email", false, false, false, false, "mine", 5, 100, 0⟩] := by
  decide

/-- When `IsTeamEditor` is asked and answers false, each of the three handlers
answers 403 and executes no statement. -/
theorem not_editor_forbidden (env : Env) (c : Context) :
    (ParseInt (c.Param "teamId") ≠ 0 →
      env.IsTeamEditor (ParseInt (c.Param "teamId")) = false →
      AddNotification env c =
        ⟨some ⟨403, .I18nError .NoPermission⟩, [.IsTeamEditor (ParseInt (c.Param "teamId"))], none⟩) ∧
    (c.Notification.Id ≠ 0 → ParseInt (c.Param "teamId") ≠ 0 →
      ParseInt (c.Param "teamId") = c.Notification.TeamId →
      env.IsTeamEditor (ParseInt (c.Param "teamId")) = false →
      UpdateNotification env c =
        ⟨some ⟨403, .I18nError .NoPermission⟩, [.IsTeamEditor (ParseInt (c.Param "teamId"))], none⟩) ∧
    (∀ n, ParseInt (c.Param "id") ≠ 0 →
      env.QueryNotification (ParseInt (c.Param "id")) = .ok n →
      env.IsTeamEditor n.TeamId = false →
      DeleteNotification env c =
        ⟨some ⟨403, .I18nError .NoPermission⟩,
          [.QueryNotification (ParseInt (c.Param "id")), .IsTeamEditor n.TeamId], none⟩) := by
  refine ⟨fun h1 h2 => ?_, fun h0 h1 h2 h3 => ?_, fun n h1 h2 h3 => ?_⟩
  · unfold AddNotification; simp [h1, h2]
  · unfold UpdateNotification; simp [h0, h1, h3, ← h2]
  · unfold DeleteNotification; simp [h1, h2, h3]

/-! ### C8: the canned evaluation context of a test notification -/

/-- C8 (as stated, refuted): the context returned by `createTestEvalContext` has
its error set while its state is not the `Error` state. -/
theorem createTestEvalContext_breaks_invariant :
    ¬ (createTestEvalContext.Error.isSome = true →
        createTestEvalContext.Rule.State = .AlertStateError) := by
  decide

/-- C8 (amended): the context returned by `createTestEvalContext` is canned
data: its error is set to "This is only a test", its state is `Alerting`, it
is a test run, and it carries the two firing matches. -/
theorem createTestEvalContext_contents :
    createTestEvalContext.Error = some "This is only a test" ∧
    createTestEvalContext.Rule.State = .AlertStateAlerting ∧
    createTestEvalContext.IsTestRun = true ∧
    createTestEvalContext.EvalMatches =
      [⟨true, "Low value", ⟨100, true⟩⟩, ⟨true, "Higher Value", ⟨200, true⟩⟩] := by
  decide

/-! ### C4: test notification -/

/-- C4: `TestNotification` answers 400 without sending when the notifier cannot
be built; otherwise it sends once, the canonical test context to exactly the
built notifier, and answers 400 with exactly the failure message when the
send fails; it writes no response exactly when build and send both succeed. -/
theorem TestNotification_outcomes (env : Env) (c : Context) :
    (∀ e, env.InitNotifier c.Notification = .error e →
      TestNotification env c =
        ⟨some ⟨400, .I18nError (.literal "error.buildNotifierError")⟩,
          [.InitNotifier c.Notification], none⟩) ∧
    (∀ n r, env.InitNotifier c.Notification = .ok n →
      env.sendNotification createTestEvalContext [n] = some r →
      TestNotification env c =
        ⟨some ⟨400, .ErrorMessage r⟩,
          [.InitNotifier c.Notification, .sendNotification createTestEvalContext [n]], none⟩) ∧
    (∀ n, env.InitNotifier c.Notification = .ok n →
      env.sendNotification createTestEvalContext [n] = none →
      TestNotification env c =
        ⟨none, [.InitNotifier c.Notification, .sendNotification createTestEvalContext [n]], none⟩) ∧
    ((TestNotification env c).response = none ↔
      ∃ n, env.InitNotifier c.Notification = .ok n ∧
        env.sendNotification createTestEvalContext [n] = none) ∧
    (∀ ctx ns, Effect.sendNotification ctx ns ∈ (TestNotification env c).effects →
      ctx = createTestEvalContext ∧ ∃ n, ns = [n] ∧ env.InitNotifier c.Notification = .ok n) := by
  refine ⟨fun e h => ?_, fun n r h1 h2 => ?_, fun n h1 h2 => ?_, ?_, ?_⟩
  · unfold TestNotification; simp [h]
  · unfold TestNotification; simp [h1, h2]
  · unfold TestNotification; simp [h1, h2]
  · unfold TestNotification
    rcases h1 : env.InitNotifier c.Notification with e | n
    · simp [h1]
    · rcases h2 : env.sendNotification createTestEvalContext [n] with _ | r
      · simp [h1, h2]
      · simp [h1, h2]
  · intro ctx ns
    unfold TestNotification
    rcases h1 : env.InitNotifier c.Notification with e | n
    · simp [h1]
    · rcases h2 : env.sendNotification createTestEvalContext [n] with _ | r
      · simp only [h1, h2]
        intro h
        simp at h
        exact ⟨h.1, n, h.2, rfl⟩
      · simp only [h1, h2]
        intro h
        simp at h
        exact ⟨h.1, n, h.2, rfl⟩

/-- Instance of C4: the delivery is refused, and the response carries that
reason. -/
theorem TestNotification_outcomes_witness :
    refusedSendEnv.InitNotifier zeroNotification = .ok ⟨""⟩ ∧
    refusedSendEnv.sendNotification createTestEvalContext [⟨""⟩]
      = some "dial tcp: connection refused" ∧
    TestNotification refusedSendEnv (request [] []) =
      ⟨some ⟨400, .ErrorMessage "dial tcp: connection refused"⟩,
        [.InitNotifier zeroNotification, .sendNotification createTestEvalContext [⟨""⟩]], none⟩ :=
  ⟨rfl, rfl,
    (TestNotification_outcomes refusedSendEnv (request [] [])).2.1 ⟨""⟩
      "dial tcp: connection refused" rfl rfl⟩

/-! ### C10: building the response of a test rule -/

/-- With no match in the evaluated context, reading `EvalMatches[0]` faults. -/
theorem testRuleResponse_of_no_match (env : Env) (res : EvalContext)
    (h : res.EvalMatches = []) :
    testRuleResponse env res = ⟨none, [], some .indexOutOfRange⟩ := by
  unfold testRuleResponse
  simp [h]

/-- The loop over `res.Logs` appends one response log per entry. -/
theorem foldl_logs (logs : List ResultLogEntry) (r : AlertTestResult) :
    logs.foldl
      (fun (r : AlertTestResult) log => { r with Logs := r.Logs ++ [⟨log.Message, log.Data⟩] }) r
      = { r with Logs := r.Logs ++ logs.map (fun log => ⟨log.Message, log.Data⟩) } := by
  induction logs generalizing r with
  | nil => simp
  | cons x xs ih => simp [List.foldl_cons, ih, List.append_assoc]

/-- The loop over `res.EvalMatches` appends one (metric, value) pair per match. -/
theorem foldl_matches (ms : List EvalMatch) (r : AlertTestResult) :
    ms.foldl
      (fun (r : AlertTestResult) m =>
        { r with EvalMatches := r.EvalMatches ++ [⟨false, m.Metric, m.Value⟩] }) r
      = { r with EvalMatches := r.EvalMatches ++ ms.map (fun m => ⟨false, m.Metric, m.Value⟩) } := by
  induction ms generalizing r with
  | nil => simp
  | cons x xs ih => simp [List.foldl_cons, ih, List.append_assoc]

/-- With at least one match, the response is 200 and carries the firing flag of
the first match, the state, the error text, the logs and the (metric, value)
list of all matches in order. -/
theorem testRuleResponse_of_match (env : Env) (res : EvalContext) (m : EvalMatch)
    (ms : List EvalMatch) (h : res.EvalMatches = m :: ms) :
    testRuleResponse env res =
      ⟨some ⟨200, .TestResult
        { Firing := m.Firing, State := res.Rule.State, ConditionEvals := res.ConditionEvals,
          TimeMs := env.DurationMs res, Error := res.Error.getD "",
          EvalMatches := res.EvalMatches.map (fun m => ⟨false, m.Metric, m.Value⟩),
          Logs := res.Logs.map (fun log => ⟨log.Message, log.Data⟩) }⟩, [], none⟩ := by
  unfold testRuleResponse
  rcases he : res.Error with _ | e
  · simp [h, foldl_logs, foldl_matches]
  · simp [h, foldl_logs, foldl_matches]

/-- C10 (the failing input): the rule of panel 2 evaluates to `NoData` with an
empty match sequence, and `TestRule` faults with an index out of range instead
of writing a 200 response. -/
theorem TestRule_no_match_faults :
    (testAlertRule noDataEnv ⟨1, 2, "cpu", "", .AlertStatePending⟩).EvalMatches = [] ∧
    (testAlertRule noDataEnv ⟨1, 2, "cpu", "", .AlertStatePending⟩).Rule.State
      = .AlertStateNoData ∧
    TestRule noDataEnv (requestWithRule 2) = ⟨none, [], some .indexOutOfRange⟩ := by
  decide

/-! ### The row loops -/

/-- The loop of `GetNotifications` appends, in order, the rows that scan and
decode. -/
theorem scanNotifications_eq (env : Env) (teamId : Int)
    (rows : List (Except String NotificationScan)) (acc : List AlertNotification) :
    scanNotifications env teamId rows acc
      = acc ++ rows.filterMap (notificationOfRow env teamId) := by
  induction rows generalizing acc with
  | nil => simp [scanNotifications]
  | cons row rows ih =>
    rcases row with e | n
    · simp [scanNotifications, notificationOfRow, ih]
    · rcases h : env.UnmarshalJSON n.rawSetting with e | j
      · simp [scanNotifications, notificationOfRow, h, ih]
      · simp [scanNotifications, notificationOfRow, h, ih]

/-- The loop of `GetHistory` appends, in order, the rows that scan and decode. -/
theorem scanHistories_eq (env : Env) (dashId panelId : Int)
    (rows : List (Except String HistoryScan)) (acc : List AlertHistory) :
    scanHistories env dashId panelId rows acc
      = acc ++ rows.filterMap (historyOfRow env dashId panelId) := by
  induction rows generalizing acc with
  | nil => simp [scanHistories]
  | cons row rows ih =>
    rcases row with e | r
    · simp [scanHistories, historyOfRow, ih]
    · rcases h : env.UnmarshalMatches r.rawMatches with e | ms
      · simp [scanHistories, historyOfRow, h, ih]
      · simp [scanHistories, historyOfRow, h, ih]

/-- The loop of `GetDashboardState` ends in the 500 response as soon as a row
fails to scan. -/
theorem scanDashboardState_of_error (rows : List (Except String (Int × String)))
    (res : List (Int × String)) (h : ∃ e, Except.error e ∈ rows) :
    scanDashboardState rows res = .error ⟨500, .InternalError⟩ := by
  induction rows generalizing res with
  | nil => simp at h
  | cons row rows ih =>
    rcases row with e | kv
    · simp [scanDashboardState]
    · obtain ⟨pid, state⟩ := kv
      simp only [scanDashboardState]
      apply ih
      obtain ⟨e, he⟩ := h
      simp at he
      exact ⟨e, he⟩

/-- When every row scans, the loop of `GetDashboardState` assigns every pair to
the map, in order. -/
theorem scanDashboardState_of_ok (rows : List (Except String (Int × String)))
    (res : List (Int × String)) (h : ∀ row ∈ rows, ∃ kv, row = Except.ok kv) :
    scanDashboardState rows res
      = .ok ((scannedPairs rows).foldl (fun m kv => mapSet m kv.1 kv.2) res) := by
  induction rows generalizing res with
  | nil => simp [scanDashboardState, scannedPairs]
  | cons row rows ih =>
    rcases row with e | kv
    · obtain ⟨kv, hkv⟩ := h (.error e) (by simp)
      simp at hkv
    · obtain ⟨pid, state⟩ := kv
      simp only [scanDashboardState, scannedPairs, List.foldl_cons]
      exact ih _ (fun row hrow => h row (List.mem_cons_of_mem _ hrow))

/-! ### `sort.Sort` over `AlertHistories` -/

/-- The sorted histories are a permutation of the input. -/
theorem sortSort_perm (l : List AlertHistory) :
    List.Perm (sortSort AlertHistories.Less l) l := by
  unfold sortSort
  exact List.perm_insertionSort _ l

/-- The sorted histories are ordered by `Time`, greatest first. -/
theorem sortSort_sorted (l : List AlertHistory) :
    List.Sorted (fun a b => b.Time ≤ a.Time) (sortSort AlertHistories.Less l) := by
  unfold sortSort
  haveI : IsTotal AlertHistory (fun a b => AlertHistories.Less b a = false) :=
    ⟨fun a b => by simp only [AlertHistories.Less, decide_eq_false_iff_not, not_lt]; omega⟩
  haveI : IsTrans AlertHistory (fun a b => AlertHistories.Less b a = false) :=
    ⟨fun a b c => by simp only [AlertHistories.Less, decide_eq_false_iff_not, not_lt]; omega⟩
  have h := List.sorted_insertionSort (fun a b => AlertHistories.Less b a = false) l
  refine List.Pairwise.imp ?_ h
  intro a b hab
  simpa [AlertHistories.Less] using hab

/-! ### C9: rows whose scan fails -/

/-- C9 (as stated, refuted): `GetDashboardState` is a multi-row read in which a
failing scan is not skipped: with the second of three rows failing to scan the
response is 500, not 200 with the two rows that scanned. -/
theorem GetDashboardState_scan_failure_aborts :
    scannedPairs [.ok (1, "ok"), .error "converting NULL to string", .ok (3, "alerting")]
      = [(1, "ok"), (3, "alerting")] ∧
    (GetDashboardState brokenStateRowEnv (request [("dashId", "1")] [])).response
      = some ⟨500, .InternalError⟩ := by
  decide

/-- C9 (amended): once the query itself has succeeded, `GetNotifications`
answers 200 with exactly the rows that scan and decode, in order, and
`GetHistory` answers 200 with exactly the rows that scan and decode, sorted;
`GetDashboardState` answers 200 with the states of all rows only when every row
scans, and 500 as soon as one row fails to scan.  Each handler is taken on its
own request, under the conditions of its own route only. -/
theorem multi_row_reads :
    (∀ (env : Env) (c : Context) (rows : List (Except String NotificationScan)),
      ParseInt (c.Param "teamId") ≠ 0 →
      env.QueryNotifications (ParseInt (c.Param "teamId")) = .ok rows →
      GetNotifications env c =
        ⟨some ⟨200, .Notifications
          (rows.filterMap (notificationOfRow env (ParseInt (c.Param "teamId"))))⟩,
          [.QueryNotifications (ParseInt (c.Param "teamId"))], none⟩) ∧
    (∀ (env : Env) (c : Context) (rows : List (Except String HistoryScan)),
      ParseInt (c.Query "dashId") ≠ 0 → ParseInt (c.Query "panelId") ≠ 0 →
      c.Query "type" = "panel" →
      env.QueryHistory (ParseInt (c.Query "dashId")) (ParseInt (c.Query "panelId"))
        (if ParseInt (c.Query "limit") = 0 then 50 else ParseInt (c.Query "limit")) = .ok rows →
      ∃ hs, (GetHistory env c).response = some ⟨200, .Histories hs⟩ ∧
        (GetHistory env c).fault = none ∧
        List.Perm hs (rows.filterMap
          (historyOfRow env (ParseInt (c.Query "dashId")) (ParseInt (c.Query "panelId")))) ∧
        List.Sorted (fun a b => b.Time ≤ a.Time) hs) ∧
    (∀ (env : Env) (c : Context) (rows : List (Except String (Int × String))),
      ParseInt (c.Param "dashId") ≠ 0 →
      env.QueryDashboardState (ParseInt (c.Param "dashId")) = .ok rows →
      ((∀ row ∈ rows, ∃ kv, row = Except.ok kv) →
        GetDashboardState env c =
          ⟨some ⟨200, .DashboardState
            ((scannedPairs rows).foldl (fun m kv => mapSet m kv.1 kv.2) [])⟩,
            [.QueryDashboardState (ParseInt (c.Param "dashId"))], none⟩) ∧
      ((∃ e, Except.error e ∈ rows) →
        GetDashboardState env c =
          ⟨some ⟨500, .InternalError⟩,
            [.QueryDashboardState (ParseInt (c.Param "dashId"))], none⟩)) := by
  refine ⟨?_, ?_, ?_⟩
  · intro env c rows hteam hN
    unfold GetNotifications
    simp only [hteam, if_false, hN, scanNotifications_eq, List.nil_append]
  · intro env c rows hdash hpanel htype hH
    refine ⟨sortSort AlertHistories.Less (rows.filterMap
      (historyOfRow env (ParseInt (c.Query "dashId")) (ParseInt (c.Query "panelId")))),
      ?_, ?_, sortSort_perm _, sortSort_sorted _⟩
    · unfold GetHistory
      simp only [hdash, hpanel, or_self, if_false, htype, if_true, hH, scanHistories_eq,
        List.nil_append]
    · unfold GetHistory
      simp only [hdash, hpanel, or_self, if_false, htype, if_true, hH]
  · intro env c rows hstate hD
    constructor
    · intro hall
      unfold GetDashboardState
      simp only [hstate, if_false, hD, scanDashboardState_of_ok rows [] hall]
    · intro hbad
      unfold GetDashboardState
      simp only [hstate, if_false, hD, scanDashboardState_of_error rows [] hbad]

/-- Instance of the amended C9, each handler on a request of its own route: the
failing rows are left out of the two listings, and the dashboard state, all of
whose rows scan, is complete. -/
theorem multi_row_reads_witness :
    ParseInt (listingRequest.Param "teamId") ≠ 0 ∧
    ParseInt (panelHistoryRequest.Query "dashId") ≠ 0 ∧
    ParseInt (panelHistoryRequest.Query "panelId") ≠ 0 ∧
    ParseInt (stateRequest.Param "dashId") ≠ 0 ∧
    (GetNotifications mixedRowsEnv listingRequest).response =
      some ⟨200, .Notifications
        [⟨1, 4, "mail", "email", true, false, false, false, ⟨"addresses"⟩⟩]⟩ ∧
    (∃ hs, (GetHistory mixedRowsEnv panelHistoryRequest).response = some ⟨200, .Histories hs⟩ ∧
      List.Perm hs [⟨5, 1, 1, "ok", [], 2000⟩]) ∧
    (GetDashboardState mixedRowsEnv stateRequest).response =
      some ⟨200, .DashboardState [(2, "alerting"), (1, "pending")]⟩ :=
  have hN := multi_row_reads.1 mixedRowsEnv listingRequest
    [.ok ⟨1, "mail", "email", true, false, false, false, "addresses"⟩,
     .error "converting NULL to string",
     .ok ⟨2, "hook", "webhook", false, false, false, false, ""⟩]
    (by decide) rfl
  have hH := multi_row_reads.2.1 mixedRowsEnv panelHistoryRequest
    [.ok ⟨5, "ok", "[]", 2000000000⟩, .error "unsupported Scan",
     .ok ⟨4, "alerting", "[", 1000000000⟩]
    (by decide) (by decide) (by decide) rfl
  have hD := (multi_row_reads.2.2 mixedRowsEnv stateRequest
    [.ok (1, "ok"), .ok (2, "alerting"), .ok (1, "pending")]
    (by decide) rfl).1 (by simp)
  ⟨by decide, by decide, by decide, by decide,
    (congrArg Outcome.response hN).trans (by decide),
    hH.imp (fun _ hh => ⟨hh.1, hh.2.2.1.trans (by decide)⟩),
    (congrArg Outcome.response hD).trans (by decide)⟩

/-! ### C5: the most recent history entries -/

/-- Mapping over the survivors of a `filterMap` that drops nothing. -/
theorem filterMap_map_of_all_some {α β γ : Type} (f : α → Option β) (g : β → γ) (k : α → γ)
    (l : List α) (hall : ∀ x ∈ l, ∃ y, f x = some y ∧ g y = k x) :
    (l.filterMap f).map g = l.map k := by
  induction l with
  | nil => simp
  | cons x xs ih =>
    obtain ⟨y, hy, hg⟩ := hall x (by simp)
    have ih2 := ih (fun z hz => hall z (List.mem_cons_of_mem _ hz))
    simp [List.filterMap_cons, hy, hg, ih2]

/-- The rows the driver hands over, filtered by scan and decode, are the stored
records filtered by `entryOfRecord`. -/
theorem filterMap_driverRows (env : Env) (scanErr : HistoryRecord → Option String)
    (d p : Int) (rs : List HistoryRecord) :
    (driverRows scanErr rs).filterMap (historyOfRow env d p)
      = rs.filterMap (entryOfRecord env scanErr d p) := by
  unfold driverRows
  rw [List.filterMap_map]
  congr 1
  funext r
  simp only [Function.comp, entryOfRecord]
  rcases h : scanErr r with _ | e
  · simp [historyOfRow]
  · simp [historyOfRow]

/-- The reading of the history query selects the `limit` most recent records of
the panel: as many as asked for or all of them, ordered by `created`
descending, and no record left out is more recent than a selected one. -/
theorem selectPanelHistory_most_recent (table : List HistoryRecord) (d p : Int) (n : Nat) :
    (selectPanelHistory table d p n).length = min n (panelRecords table d p).length ∧
    (∀ r ∈ selectPanelHistory table d p n, r ∈ panelRecords table d p) ∧
    List.Sorted (fun a b => b.created ≤ a.created) (selectPanelHistory table d p n) ∧
    (∀ r ∈ panelRecords table d p, r ∉ selectPanelHistory table d p n →
      ∀ s ∈ selectPanelHistory table d p n, r.created ≤ s.created) := by
  haveI : IsTotal HistoryRecord (fun a b => b.created ≤ a.created) :=
    ⟨fun a b => by omega⟩
  haveI : IsTrans HistoryRecord (fun a b => b.created ≤ a.created) :=
    ⟨fun a b c hab hbc => by omega⟩
  have hsorted := List.sorted_insertionSort (fun a b : HistoryRecord => b.created ≤ a.created)
    (panelRecords table d p)
  have hperm := List.perm_insertionSort (fun a b : HistoryRecord => b.created ≤ a.created)
    (panelRecords table d p)
  refine ⟨?_, ?_, ?_, ?_⟩
  · unfold selectPanelHistory
    rw [List.length_take, List.length_insertionSort]
  · intro r hr
    unfold selectPanelHistory at hr
    exact hperm.mem_iff.mp (List.mem_of_mem_take hr)
  · unfold selectPanelHistory
    exact List.Pairwise.sublist (List.take_sublist _ _) hsorted
  · intro r hr hnot s hs
    unfold selectPanelHistory at hnot hs
    have hr2 := hperm.mem_iff.mpr hr
    rw [← List.take_append_drop n
      ((panelRecords table d p).insertionSort (fun a b => b.created ≤ a.created))] at hr2 hsorted
    rcases List.mem_append.mp hr2 with h1 | h1
    · exact absurd h1 hnot
    · exact (List.pairwise_append.mp hsorted).2.2 s hs r h1

/-- C5 (as stated, refuted): of three stored rows at t1 < t2 < t3 the newest
has matches that do not decode; with limit 2 the two most recent rows are 3
and 2, yet the response holds the entry of row 2 only. -/
theorem GetHistory_drops_undecodable_row :
    (selectPanelHistory (threeRecords "[") 1 1 2).map (fun r => r.id) = [3, 2] ∧
    (GetHistory (historyEnv (threeRecords "[")) historyRequest).response
      = some ⟨200, .Histories [⟨2, 1, 1, "alerting", [], 2000⟩]⟩ := by
  decide

/-- C5 (amended): for a limit n > 0 and a persistence layer that answers the
history query by its SQL text, `GetHistory` answers 200 with a sequence sorted
by timestamp descending that consists of the entries of those of the n most
recent rows of the panel whose scan and decode succeed; when all of them scan
and decode it has one entry (same id, same timestamp) for each of the n most
recent rows, or for all rows when fewer than n exist. -/
theorem GetHistory_most_recent (env : Env) (c : Context) (table : List HistoryRecord)
    (scanErr : HistoryRecord → Option String) (d p : Int) (n : Nat)
    (hd : ParseInt (c.Query "dashId") = d) (hd0 : d ≠ 0)
    (hp : ParseInt (c.Query "panelId") = p) (hp0 : p ≠ 0)
    (htype : c.Query "type" = "panel")
    (hn : ParseInt (c.Query "limit") = (n : Int)) (hpos : 0 < n)
    (hq : env.QueryHistory d p n = .ok (driverRows scanErr (selectPanelHistory table d p n))) :
    ∃ hs, (GetHistory env c).response = some ⟨200, .Histories hs⟩ ∧
      List.Sorted (fun a b => b.Time ≤ a.Time) hs ∧
      List.Perm hs ((selectPanelHistory table d p n).filterMap (entryOfRecord env scanErr d p)) ∧
      ((∀ r ∈ selectPanelHistory table d p n, (entryOfRecord env scanErr d p r).isSome = true) →
        List.Perm (hs.map (fun h => (h.ID, h.Time)))
          ((selectPanelHistory table d p n).map (fun r => (r.id, Int.tdiv r.created 1000000))) ∧
        hs.length = min n (panelRecords table d p).length) ∧
      (selectPanelHistory table d p n).length = min n (panelRecords table d p).length ∧
      (∀ r ∈ selectPanelHistory table d p n, r ∈ panelRecords table d p) ∧
      (∀ r ∈ panelRecords table d p, r ∉ selectPanelHistory table d p n →
        ∀ s ∈ selectPanelHistory table d p n, r.created ≤ s.created) := by
  have hsel := selectPanelHistory_most_recent table d p n
  have hn0 : (n : Int) ≠ 0 := by omega
  have hperm : List.Perm
      (sortSort AlertHistories.Less
        ((selectPanelHistory table d p n).filterMap (entryOfRecord env scanErr d p)))
      ((selectPanelHistory table d p n).filterMap (entryOfRecord env scanErr d p)) :=
    sortSort_perm _
  refine ⟨sortSort AlertHistories.Less
    ((selectPanelHistory table d p n).filterMap (entryOfRecord env scanErr d p)),
    ?_, sortSort_sorted _, hperm, ?_, hsel.1, hsel.2.1, hsel.2.2.2⟩
  · unfold GetHistory
    simp only [hd, hp, hd0, hp0, or_self, if_false, htype, if_true, hn, hn0, hq,
      scanHistories_eq, List.nil_append, filterMap_driverRows]
  · intro hall
    have hmap : ((selectPanelHistory table d p n).filterMap (entryOfRecord env scanErr d p)).map
        (fun h => (h.ID, h.Time))
        = (selectPanelHistory table d p n).map (fun r => (r.id, Int.tdiv r.created 1000000)) := by
      apply filterMap_map_of_all_some
      intro r hr
      have hsome := hall r hr
      unfold entryOfRecord at hsome ⊢
      rcases h1 : scanErr r with _ | e
      · rcases h2 : env.UnmarshalMatches r.rawMatches with e | ms
        · simp [h1, h2] at hsome
        · exact ⟨_, rfl, rfl⟩
      · simp [h1] at hsome
    have hp2 := (hperm.map (fun h => (h.ID, h.Time)))
    rw [hmap] at hp2
    refine ⟨hp2, ?_⟩
    have hlen := hp2.length_eq
    simp only [List.length_map] at hlen
    rw [hlen, hsel.1]

/-- Instance of the amended C5: the three rows at t1 < t2 < t3 with limit 2 give
the entries of t3 and t2, in that order. -/
theorem GetHistory_most_recent_witness :
    ParseInt (historyRequest.Query "limit") = ((2 : Nat) : Int) ∧
    ∃ hs, (GetHistory (historyEnv (threeRecords "[]")) historyRequest).response
        = some ⟨200, .Histories hs⟩ ∧
      List.Sorted (fun a b => b.Time ≤ a.Time) hs ∧
      hs.length = 2 ∧
      hs = [⟨3, 1, 1, "ok", [], 3000⟩, ⟨2, 1, 1, "alerting", [], 2000⟩] :=
  have h := GetHistory_most_recent (historyEnv (threeRecords "[]")) historyRequest
    (threeRecords "[]") (fun _ => none) 1 1 2
    (by decide) (by decide) (by decide) (by decide) (by decide) (by decide) (by decide) rfl
  have e : (GetHistory (historyEnv (threeRecords "[]")) historyRequest).response
      = some ⟨200, .Histories [⟨3, 1, 1, "ok", [], 3000⟩, ⟨2, 1, 1, "alerting", [], 2000⟩]⟩ := by
    decide
  ⟨by decide, h.imp (fun _ hh =>
    ⟨hh.1, hh.2.1, (hh.2.2.2.1 (by decide)).2.trans (by decide),
      by simpa using hh.1.symm.trans e⟩)⟩

end Alerting
